import Mathlib

/-!
Shallow embedding of the `loadtest` package of game-ai-cs (a Locust-based
load-testing harness) and proofs about its session-bootstrap, id-selection,
response-unwrapping and failure-reporting logic.

Python values flowing through the scripts are modelled by a small `Json`
type, with Python `None` as `Json.null`; Python truthiness is `pyTruthy`.
JSON arrays and objects are represented with dedicated list types (`JList`,
`JFields`) so that equality is decidable by evaluation.  Network I/O is
modelled by passing the responses an invocation would receive (an oracle for
the server) and returning, alongside the result value and the updated actor
state, the list of HTTP requests the invocation issued.  A `crashed` flag
records when the Python code would raise (an unguarded `.get` on a
non-mapping); the state at the raise point is returned unchanged, matching
Python semantics of an exception aborting the method body.
-/

mutual

/-- A parsed JSON / Python value. `null` doubles as Python `None`. -/
inductive Json where
  | null
  | bool (b : Bool)
  | num (n : Int)
  | str (s : String)
  | arr (elems : JList)
  | obj (fields : JFields)
deriving Repr, BEq, DecidableEq

/-- A JSON array's elements. -/
inductive JList where
  | nil
  | cons (hd : Json) (tl : JList)
deriving Repr, BEq, DecidableEq

/-- A JSON object's fields, in insertion order (Python dicts keep it). -/
inductive JFields where
  | nil
  | cons (key : String) (val : Json) (tl : JFields)
deriving Repr, BEq, DecidableEq

end

/-- Whether an array is empty. -/
def JList.isNil : JList → Bool
  | .nil => true
  | .cons _ _ => false

/-- Whether an object has no fields. -/
def JFields.isNil : JFields → Bool
  | .nil => true
  | .cons _ _ _ => false

/-- Number of elements, for modelling `random.choice` index arithmetic. -/
def JList.length : JList → Nat
  | .nil => 0
  | .cons _ tl => 1 + tl.length

/-- Element at an index, with a default (indices are taken mod the length). -/
def JList.getD : JList → Nat → Json → Json
  | .nil, _, d => d
  | .cons hd _, 0, _ => hd
  | .cons _ tl, n + 1, d => tl.getD n d

/-- `p` holds of every element. -/
def JList.all (p : Json → Bool) : JList → Bool
  | .nil => true
  | .cons hd tl => p hd && tl.all p

/-- Build a `JList` from a Lean list literal (for concrete test values). -/
def JList.ofList : List Json → JList
  | [] => .nil
  | x :: xs => .cons x (JList.ofList xs)

/-- Build a `JFields` from a Lean list literal (for concrete test values). -/
def JFields.ofList : List (String × Json) → JFields
  | [] => .nil
  | (k, v) :: xs => .cons k v (JFields.ofList xs)

/-- Python truthiness (`if x:`) for the values the scripts test. -/
def pyTruthy : Json → Bool
  | .null => false
  | .bool b => b
  | .num n => n != 0
  | .str s => s != ""
  | .arr elems => !elems.isNil
  | .obj fields => !fields.isNil

/-- Python `a or b` on our values. -/
def pyOr (a b : Json) : Json := if pyTruthy a then a else b

/-- `isinstance(x, dict)`. -/
def Json.isObj : Json → Bool
  | .obj _ => true
  | _ => false

/-- `isinstance(x, list)`. -/
def Json.isArr : Json → Bool
  | .arr _ => true
  | _ => false

/-- Lookup in an object's fields (Python dict keys are unique, so first
match is the match). -/
def jfieldsGet : JFields → String → Json
  | .nil, _ => .null
  | .cons key v tl, k => if key == k then v else jfieldsGet tl k

/-- Python `d.get(k)`: the value at `k`, else `None`.  Only ever applied to
mappings (the scripts guard with `isinstance(..., dict)` or crash first). -/
def jget : Json → String → Json
  | .obj fields, k => jfieldsGet fields k
  | _, _ => .null

/-- Key membership in an object's fields. -/
def jfieldsHas : JFields → String → Bool
  | .nil, _ => false
  | .cons key _ tl, k => key == k || jfieldsHas tl k

/-- Python `k in d` for a mapping. -/
def hasKey : Json → String → Bool
  | .obj fields, k => jfieldsHas fields k
  | _, _ => false

/-- An environment-variable value (`os.getenv` result) as a Python value. -/
def pyStrOpt : Option String → Json
  | none => Json.null
  | some s => Json.str s

/-- HTTP method of an issued request. -/
inductive Method where
  | GET
  | POST
  | PATCH
deriving Repr, DecidableEq

/-- One request issued by the script, identified by its Locust `name=` tag. -/
structure Request where
  method : Method
  name : String
deriving Repr, DecidableEq

/-- Number of requests in a trace carrying a given Locust name. -/
def countName (tr : List Request) (n : String) : Nat :=
  (tr.filter (fun r => r.name == n)).length

/-- An HTTP response as the scripts observe it.  `jsonResult = none` models
`res.json()` raising; `elapsedMs = none` models a response object without an
`elapsed` attribute; `text = none` models `res.text` being `None`. -/
structure Response where
  status : Nat
  jsonResult : Option Json := none
  elapsedMs : Option Nat := none
  text : Option String := none
deriving Repr, DecidableEq

/-- `getattr(res, "text", "") or ""`. -/
def effText (r : Response) : String :=
  match r.text with
  | none => ""
  | some s => s

/-- common.py / locustfile.py `extract_data`: unwrap the `TransformInterceptor`
envelope.  The body of the Python `try` is the `res.json()` call alone; on a
parse failure the function returns `None`. -/
def extract_data (r : Response) : Json :=
  match r.jsonResult with
  | none => Json.null
  | some payload =>
    if payload.isObj && hasKey payload "data" then jget payload "data" else payload

/-- `extract_data` with the exception flow explicit: the `try/except` around
`res.json()` converts the parse exception into a normal `None` return, so the
function as a whole never raises. -/
def extract_dataE (r : Response) : Except String Json :=
  let parsed : Except String Json :=
    match r.jsonResult with
    | none => Except.error "json raised"
    | some payload => Except.ok payload
  match parsed with
  | Except.error _ => Except.ok Json.null
  | Except.ok payload =>
    Except.ok (if payload.isObj && hasKey payload "data" then jget payload "data" else payload)

/-- The payload of one `environment.events.request.fire(...)` call made by
`record_failure`. -/
structure FailureEvent where
  requestType : String
  name : String
  responseTime : Nat
  responseLength : Nat
  exceptionMsg : String
deriving Repr, DecidableEq

/-- The event `record_failure` fires for a response outside the ignored set:
`elapsed` milliseconds (0 when the attribute is absent or the timedelta is
falsy, which yields the same number), the body length, and
`Exception(f"\x7bstatus\x7d \x7btext\x7d")`. -/
def failureEventFor (name : String) (r : Response) : FailureEvent :=
  { requestType := "HTTP"
    name := name
    responseTime := r.elapsedMs.getD 0
    responseLength := (effText r).length
    exceptionMsg := toString r.status ++ " " ++ effText r }

/-- common.py `BaseHttpUser.record_failure`: drop 401/429, otherwise fire. -/
def record_failure (name : String) (r : Response) : Option FailureEvent :=
  if r.status = 401 ∨ r.status = 429 then none
  else some (failureEventFor name r)

/-- locustfile.py `BaseUser.is_throttle`. -/
def is_throttle (r : Response) : Bool := r.status == 429

/-- locustfile.py `BaseUser.is_unauthorized`. -/
def is_unauthorized (r : Response) : Bool := r.status == 401

/-- locustfile.py `BaseUser.record_failure`: drop throttle/unauthorized,
otherwise fire the same event shape as the common.py version. -/
def lfRecordFailure (name : String) (r : Response) : Option FailureEvent :=
  if is_throttle r || is_unauthorized r then none
  else some (failureEventFor name r)

/-- Module-level environment configuration read at import time
(common.py / locustfile.py top-level `os.getenv` constants). -/
structure Config where
  envGameId : Option String := none
  envIssueTypeId : Option String := none
  envPlayerName : Option String := none
  aiSessionId : Option String := none
deriving Repr, DecidableEq

/-- Accepted success statuses for POSTs (`OK_POST_CODES`). -/
def OK_POST_CODES : List Nat := [200, 201, 204]

/-- common.py `BaseHttpUser` per-actor state: the auth token/headers pair and
the two lazily cached ids (`_game_id`, `_issue_type_id`, absent as `None`). -/
structure CState where
  token : Json := Json.null
  headers : Option Json := none
  gameIdCache : Json := Json.null
  issueTypeCache : Json := Json.null
deriving Repr, DecidableEq

/-- `PlayerUser` (player_user.py) state on top of the common base. -/
structure PState extends CState where
  player_id : String := ""
  sessionId : Json := Json.null
  ticketId : Json := Json.null
deriving Repr, DecidableEq

/-- `AIMessageUser` (ai_message_user.py) state on top of the common base. -/
structure AIState extends CState where
  player_id : String := ""
  sid : Json := Json.null
deriving Repr, DecidableEq

/-- Outcome of one Python method: return value, post-state, issued requests,
and whether the method raised (aborting before a normal return). -/
structure PyResult (σ : Type) (α : Type) where
  val : α
  state : σ
  trace : List Request
  crashed : Bool := false
deriving Repr

/-- `t.get("id") if isinstance(t, dict) else None`. -/
def idOf (t : Json) : Json := if t.isObj then jget t "id" else Json.null

/-- `data = extract_data(res) or \x7b\x7d; data.get("id") if isinstance(data, dict)
else None` — the id-parsing step shared by the POST handlers. -/
def parsedId (res : Response) : Json := idOf (pyOr (extract_data res) (Json.obj .nil))

/-- common.py `BaseHttpUser.get_any_issue_type_id`: env override, then the
per-actor cache, then one GET of `/issue-types`, caching the first entry's id
when it is truthy.  Note: no preferred-name scan here, unlike locustfile.py. -/
def get_any_issue_type_id (cfg : Config) (st : CState) (res : Response) :
    PyResult CState Json :=
  if pyTruthy (pyStrOpt cfg.envIssueTypeId) then ⟨pyStrOpt cfg.envIssueTypeId, st, [], false⟩
  else if pyTruthy st.issueTypeCache then ⟨st.issueTypeCache, st, [], false⟩
  else if res.status ≠ 200 then ⟨Json.null, st, [⟨.GET, "issue_types_enabled"⟩], false⟩
  else
    match pyOr (extract_data res) (Json.arr .nil) with
    | Json.arr (JList.cons t _) =>
      if pyTruthy (idOf t) then
        ⟨idOf t, { st with issueTypeCache := idOf t }, [⟨.GET, "issue_types_enabled"⟩], false⟩
      else ⟨Json.null, st, [⟨.GET, "issue_types_enabled"⟩], false⟩
    | _ => ⟨Json.null, st, [⟨.GET, "issue_types_enabled"⟩], false⟩

/-- common.py `BaseHttpUser.get_any_game_id`: same shape over
`/games/enabled` and `_game_id`.  It does not consult `headers`. -/
def get_any_game_id (cfg : Config) (st : CState) (res : Response) :
    PyResult CState Json :=
  if pyTruthy (pyStrOpt cfg.envGameId) then ⟨pyStrOpt cfg.envGameId, st, [], false⟩
  else if pyTruthy st.gameIdCache then ⟨st.gameIdCache, st, [], false⟩
  else if res.status ≠ 200 then ⟨Json.null, st, [⟨.GET, "games_enabled"⟩], false⟩
  else
    match pyOr (extract_data res) (Json.arr .nil) with
    | Json.arr (JList.cons g _) =>
      if pyTruthy (idOf g) then
        ⟨idOf g, { st with gameIdCache := idOf g }, [⟨.GET, "games_enabled"⟩], false⟩
      else ⟨Json.null, st, [⟨.GET, "games_enabled"⟩], false⟩
    | _ => ⟨Json.null, st, [⟨.GET, "games_enabled"⟩], false⟩

/-- common.py `BaseHttpUser.login_admin`.  `data.get("accessToken")` is
unguarded: if the unwrapped body is truthy and not a mapping the call raises
(`crashed`), leaving the state unmodified. -/
def login_admin (st : CState) (res : Response) : PyResult CState Bool :=
  if res.status ≠ 200 then ⟨false, st, [⟨.POST, "auth_login"⟩], false⟩
  else if (pyOr (extract_data res) (Json.obj .nil)).isObj then
    if pyTruthy (jget (pyOr (extract_data res) (Json.obj .nil)) "accessToken") then
      ⟨true,
       { st with token := jget (pyOr (extract_data res) (Json.obj .nil)) "accessToken",
                 headers := some (jget (pyOr (extract_data res) (Json.obj .nil)) "accessToken") },
       [⟨.POST, "auth_login"⟩], false⟩
    else ⟨false, st, [⟨.POST, "auth_login"⟩], false⟩
  else ⟨false, st, [⟨.POST, "auth_login"⟩], true⟩

/-- common.py `BaseHttpUser.logout_admin`: nothing without headers, else one
POST and both auth fields reset. -/
def logout_admin (st : CState) : PyResult CState Unit :=
  match st.headers with
  | none => ⟨(), st, [], false⟩
  | some _ =>
    ⟨(), { st with token := Json.null, headers := none }, [⟨.POST, "auth_logout"⟩], false⟩

/-- The responses one `create_ticket` invocation may consume. -/
structure TicketEnv where
  gamesRes : Response
  issueTypesRes : Response
  ticketRes : Response
deriving Repr

/-- The tail of player_user.py `PlayerUser.create_ticket` once both id
resolutions have run (`gid`/`iid` their values, `st1` the state they left,
`tr` the requests they issued): the combined falsy check, then one POST of
`/tickets`; on an accepted status `self.ticket_id` is assigned the parsed id
(or `None` when the body is not a mapping) and returned. -/
def ct_post (env : TicketEnv) (gid iid : Json) (st1 : PState) (tr : List Request) :
    PyResult PState Json :=
  if !pyTruthy gid || !pyTruthy iid then ⟨Json.null, st1, tr, false⟩
  else if env.ticketRes.status ∈ OK_POST_CODES then
    ⟨parsedId env.ticketRes, { st1 with ticketId := parsedId env.ticketRes },
     tr ++ [⟨.POST, "player_create_ticket"⟩], false⟩
  else ⟨Json.null, st1, tr ++ [⟨.POST, "player_create_ticket"⟩], false⟩

/-- player_user.py `PlayerUser.create_ticket`: resolve the game id, then the
issue-type id (both resolutions run before the combined check), then the
ticket POST via `ct_post`. -/
def create_ticket (cfg : Config) (st : PState) (env : TicketEnv) : PyResult PState Json :=
  ct_post env (get_any_game_id cfg st.toCState env.gamesRes).val
    (get_any_issue_type_id cfg (get_any_game_id cfg st.toCState env.gamesRes).state
      env.issueTypesRes).val
    { st with
      toCState :=
        (get_any_issue_type_id cfg (get_any_game_id cfg st.toCState env.gamesRes).state
          env.issueTypesRes).state }
    ((get_any_game_id cfg st.toCState env.gamesRes).trace ++
      (get_any_issue_type_id cfg (get_any_game_id cfg st.toCState env.gamesRes).state
        env.issueTypesRes).trace)

/-- The responses one `create_session` invocation may consume. -/
structure SessionEnv extends TicketEnv where
  sessionRes : Response
deriving Repr

/-- The tail of player_user.py `PlayerUser.create_session` once the ticket id
has been resolved: give up on a falsy `self.ticket_id`, else one POST of
`/sessions`; on an accepted status `self.session_id` is assigned the parsed
id (or `None` when the body is not a mapping) and returned. -/
def cs_post (env : SessionEnv) (st1 : PState) (tr1 : List Request) : PyResult PState Json :=
  if !pyTruthy st1.ticketId then ⟨Json.null, st1, tr1, false⟩
  else if env.sessionRes.status ∈ OK_POST_CODES then
    ⟨parsedId env.sessionRes, { st1 with sessionId := parsedId env.sessionRes },
     tr1 ++ [⟨.POST, "player_create_session"⟩], false⟩
  else ⟨Json.null, st1, tr1 ++ [⟨.POST, "player_create_session"⟩], false⟩

/-- player_user.py `PlayerUser.create_session`: when `self.ticket_id` is
falsy first assign it from `create_ticket`'s return, then `cs_post`. -/
def create_session (cfg : Config) (st : PState) (env : SessionEnv) : PyResult PState Json :=
  if !pyTruthy st.ticketId then
    cs_post env
      { (create_ticket cfg st env.toTicketEnv).state with
        ticketId := (create_ticket cfg st env.toTicketEnv).val }
      (create_ticket cfg st env.toTicketEnv).trace
  else cs_post env st []

/-- The responses one `send_message` invocation may consume. -/
structure SendEnv extends SessionEnv where
  pollRes : Response
deriving Repr

/-- The tail of player_user.py `PlayerUser.send_message` after the bootstrap
guard: give up on a falsy `self.session_id`, else POST one message and poll
once (the poll result only feeds `record_failure`, never the state). -/
def sm_post (st1 : PState) (tr1 : List Request) : PyResult PState Unit :=
  if !pyTruthy st1.sessionId then ⟨(), st1, tr1, false⟩
  else ⟨(), st1, tr1 ++ [⟨.POST, "player_send_msg"⟩, ⟨.GET, "player_poll_msgs"⟩], false⟩

/-- player_user.py `PlayerUser.send_message`: bootstrap a session only when
`self.session_id` is falsy, then `sm_post`. -/
def send_message (cfg : Config) (st : PState) (env : SendEnv) : PyResult PState Unit :=
  if !pyTruthy st.sessionId then
    sm_post (create_session cfg st env.toSessionEnv).state
      (create_session cfg st env.toSessionEnv).trace
  else sm_post st []

/-- locustfile.py `PREFERRED_GAMES`. -/
def PREFERRED_GAMES : List String := ["神曲", "弹弹堂"]

/-- locustfile.py `PREFERRED_ISSUE_TYPES`. -/
def PREFERRED_ISSUE_TYPES : List String :=
  ["游戏玩法咨询", "好友/社交问题", "其他问题", "实名认证问题", "活动奖励问题"]

/-- locustfile.py's `next((item for item in items if isinstance(item, dict)
and item.get("name") == name), None)`. -/
def findByName : JList → String → Option Json
  | .nil, _ => none
  | .cons item tl, name =>
    if item.isObj = true ∧ jget item "name" = Json.str name then some item
    else findByName tl name

/-- The preferred-name loop of locustfile.py's getters: scan the preferred
names in order; take the first whose matching candidate also has a truthy
id; `null` when the loop assigns nothing. -/
def selectPreferred (preferred : List String) (items : JList) : Json :=
  match preferred with
  | [] => Json.null
  | n :: rest =>
    match findByName items n with
    | some m =>
      if pyTruthy m && pyTruthy (jget m "id") then jget m "id"
      else selectPreferred rest items
    | none => selectPreferred rest items

/-- The full id-selection step of locustfile.py's getters: the preferred-name
loop, else the first entry's id (`None` when that entry is not a mapping). -/
def selectId (preferred : List String) (items : JList) : Json :=
  if pyTruthy (selectPreferred preferred items) then selectPreferred preferred items
  else
    match items with
    | .nil => Json.null
    | .cons first _ => if first.isObj then jget first "id" else Json.null

/-- The selection policy in the spec's words, to compare against the code:
"the id of the first candidate whose name matches an entry of the fixed
preferred-name list scanned in preferred order (first match wins), and the
id of the first list entry when no preferred name matches". -/
def specFirstPreferredMatch (preferred : List String) (items : JList) : Option Json :=
  match preferred with
  | [] => none
  | n :: rest =>
    match findByName items n with
    | some m => some m
    | none => specFirstPreferredMatch rest items

/-- Spec-words selection built on `specFirstPreferredMatch`. -/
def specSelectId (preferred : List String) (items : JList) : Json :=
  match specFirstPreferredMatch preferred items with
  | some m => jget m "id"
  | none =>
    match items with
    | .nil => Json.null
    | .cons first _ => jget first "id"

/-- locustfile.py `BaseUser`-family per-actor state.  `gameCache` and
`issueTypeCache` stand for the attributes named by the `cache_attr` argument
(e.g. `_player_game_id`, `_player_issue_type_id`); `cachedPlayerSession` is
`_cached_player_session`. -/
structure LFState where
  token : Json := Json.null
  headers : Option Json := none
  gameCache : Json := Json.null
  issueTypeCache : Json := Json.null
  cachedPlayerSession : Json := Json.null
deriving Repr, DecidableEq

/-- locustfile.py `BaseUser.get_any_issue_type_id`: env override, per-actor
cache, then one GET of `/issue-types` and the preferred-name selection,
caching only a truthy result.  This getter has no `headers` guard. -/
def lfGetAnyIssueTypeId (cfg : Config) (st : LFState) (res : Response) :
    PyResult LFState Json :=
  if pyTruthy (pyStrOpt cfg.envIssueTypeId) then ⟨pyStrOpt cfg.envIssueTypeId, st, [], false⟩
  else if pyTruthy st.issueTypeCache then ⟨st.issueTypeCache, st, [], false⟩
  else if res.status ≠ 200 then ⟨Json.null, st, [⟨.GET, "common_issue_types"⟩], false⟩
  else
    match pyOr (extract_data res) (Json.arr .nil) with
    | Json.arr (JList.cons t ts) =>
      if pyTruthy (selectId PREFERRED_ISSUE_TYPES (JList.cons t ts)) then
        ⟨selectId PREFERRED_ISSUE_TYPES (JList.cons t ts),
         { st with issueTypeCache := selectId PREFERRED_ISSUE_TYPES (JList.cons t ts) },
         [⟨.GET, "common_issue_types"⟩], false⟩
      else ⟨selectId PREFERRED_ISSUE_TYPES (JList.cons t ts), st,
            [⟨.GET, "common_issue_types"⟩], false⟩
    | _ => ⟨Json.null, st, [⟨.GET, "common_issue_types"⟩], false⟩

/-- locustfile.py `BaseUser.get_any_game_id`: env override, per-actor cache,
then a `headers` guard (`if not self.headers: return None`, with no request),
then one GET of `/games` and the preferred-name selection. -/
def lfGetAnyGameId (cfg : Config) (st : LFState) (res : Response) :
    PyResult LFState Json :=
  if pyTruthy (pyStrOpt cfg.envGameId) then ⟨pyStrOpt cfg.envGameId, st, [], false⟩
  else if pyTruthy st.gameCache then ⟨st.gameCache, st, [], false⟩
  else if st.headers.isNone then ⟨Json.null, st, [], false⟩
  else if res.status ≠ 200 then ⟨Json.null, st, [⟨.GET, "common_games"⟩], false⟩
  else
    match pyOr (extract_data res) (Json.arr .nil) with
    | Json.arr (JList.cons g gs) =>
      if pyTruthy (selectId PREFERRED_GAMES (JList.cons g gs)) then
        ⟨selectId PREFERRED_GAMES (JList.cons g gs),
         { st with gameCache := selectId PREFERRED_GAMES (JList.cons g gs) },
         [⟨.GET, "common_games"⟩], false⟩
      else ⟨selectId PREFERRED_GAMES (JList.cons g gs), st, [⟨.GET, "common_games"⟩], false⟩
    | _ => ⟨Json.null, st, [⟨.GET, "common_games"⟩], false⟩

/-- `random.choice(sessions)`, modelled by a pick index taken mod length. -/
def chooseAt (xs : JList) (pick : Nat) : Json := xs.getD (pick % xs.length) Json.null

/-- locustfile.py `PlayerUser.get_random_session_id`: return the cached id
when set, else one GET of `/sessions`, a random choice among the entries and
caching of a truthy id. -/
def get_random_session_id (st : LFState) (res : Response) (pick : Nat) :
    PyResult LFState Json :=
  if pyTruthy st.cachedPlayerSession then ⟨st.cachedPlayerSession, st, [], false⟩
  else if res.status ≠ 200 then ⟨Json.null, st, [⟨.GET, "player_list_sessions"⟩], false⟩
  else
    match pyOr (extract_data res) (Json.arr .nil) with
    | Json.arr (JList.cons s ss) =>
      if pyTruthy (idOf (chooseAt (JList.cons s ss) pick)) then
        ⟨idOf (chooseAt (JList.cons s ss) pick),
         { st with cachedPlayerSession := idOf (chooseAt (JList.cons s ss) pick) },
         [⟨.GET, "player_list_sessions"⟩], false⟩
      else ⟨idOf (chooseAt (JList.cons s ss) pick), st, [⟨.GET, "player_list_sessions"⟩], false⟩
    | _ => ⟨Json.null, st, [⟨.GET, "player_list_sessions"⟩], false⟩

/-- The state ai_message_user.py `AIMessageUser.on_start` builds before its
probabilistic setup branch: `self.sid = os.getenv("AI_SESSION_ID") or None`. -/
def aiBase (cfg : Config) (pid : String) (st : CState) : AIState :=
  { st with
    player_id := pid
    sid := if pyTruthy (pyStrOpt cfg.aiSessionId) then pyStrOpt cfg.aiSessionId else Json.null }

/-- The setup tail of `AIMessageUser.on_start` after the id resolutions: one
ticket POST, and on an accepted status an unguarded
`extract_data(t).get("id")` (raising on a non-mapping), then one session
POST and the symmetric unguarded parse assigning `self.sid`. -/
def ai_post (env : SessionEnv) (gid iid : Json) (st1 : AIState) (tr : List Request) :
    PyResult AIState Unit :=
  if !pyTruthy gid || !pyTruthy iid then ⟨(), st1, tr, false⟩
  else if env.ticketRes.status ∈ OK_POST_CODES then
    if !(extract_data env.ticketRes).isObj then
      ⟨(), st1, tr ++ [⟨.POST, "ai_setup_ticket"⟩], true⟩
    else if env.sessionRes.status ∈ OK_POST_CODES then
      if !(extract_data env.sessionRes).isObj then
        ⟨(), st1, tr ++ [⟨.POST, "ai_setup_ticket"⟩, ⟨.POST, "ai_setup_session"⟩], true⟩
      else
        ⟨(), { st1 with sid := jget (extract_data env.sessionRes) "id" },
         tr ++ [⟨.POST, "ai_setup_ticket"⟩, ⟨.POST, "ai_setup_session"⟩], false⟩
    else ⟨(), st1, tr ++ [⟨.POST, "ai_setup_ticket"⟩, ⟨.POST, "ai_setup_session"⟩], false⟩
  else ⟨(), st1, tr ++ [⟨.POST, "ai_setup_ticket"⟩], false⟩

/-- ai_message_user.py `AIMessageUser.on_start`.  `doSetup` is the outcome of
the `random.random() > setup_prob` draw being false (the setup branch is
taken); `pid` is the random player id. -/
def aiOnStart (cfg : Config) (pid : String) (st : CState) (doSetup : Bool)
    (env : SessionEnv) : PyResult AIState Unit :=
  if pyTruthy (aiBase cfg pid st).sid then ⟨(), aiBase cfg pid st, [], false⟩
  else if !doSetup then ⟨(), aiBase cfg pid st, [], false⟩
  else
    ai_post env (get_any_game_id cfg st env.gamesRes).val
      (get_any_issue_type_id cfg (get_any_game_id cfg st env.gamesRes).state
        env.issueTypesRes).val
      { aiBase cfg pid st with
        toCState :=
          (get_any_issue_type_id cfg (get_any_game_id cfg st env.gamesRes).state
            env.issueTypesRes).state }
      ((get_any_game_id cfg st env.gamesRes).trace ++
        (get_any_issue_type_id cfg (get_any_game_id cfg st env.gamesRes).state
          env.issueTypesRes).trace)

/-- The operations a `PlayerUser` / `BaseHttpUser` actor can run on its own
state (each with the responses it would receive). -/
inductive POp where
  | loginAdmin (res : Response)
  | logoutAdmin
  | createTicket (env : TicketEnv)
  | createSession (env : SessionEnv)
  | sendMessage (env : SendEnv)
  | getGameId (res : Response)
  | getIssueTypeId (res : Response)
  | listMessages (res : Response)
  | sessionDetail (res : Response)

/-- State effect of one operation.  `list_messages` and `session_detail`
only read and report failures, so they leave the state unchanged. -/
def pstep (cfg : Config) (op : POp) (st : PState) : PState :=
  match op with
  | .loginAdmin res => { st with toCState := (login_admin st.toCState res).state }
  | .logoutAdmin => { st with toCState := (logout_admin st.toCState).state }
  | .createTicket env => (create_ticket cfg st env).state
  | .createSession env => (create_session cfg st env).state
  | .sendMessage env => (send_message cfg st env).state
  | .getGameId res => { st with toCState := (get_any_game_id cfg st.toCState res).state }
  | .getIssueTypeId res => { st with toCState := (get_any_issue_type_id cfg st.toCState res).state }
  | .listMessages _ => st
  | .sessionDetail _ => st

/-- The token and the headers dict are set and cleared together: the actor
holds one token/headers pair or none. -/
def pairedAuth (st : CState) : Prop := st.headers.isSome = pyTruthy st.token

/-! ## Helper lemmas -/

theorem countName_append (a b : List Request) (n : String) :
    countName (a ++ b) n = countName a n + countName b n := by
  simp [countName, List.filter_append]

theorem gag_trace_cases (cfg : Config) (st : CState) (res : Response) :
    (get_any_game_id cfg st res).trace = [] ∨
    (get_any_game_id cfg st res).trace = [⟨Method.GET, "games_enabled"⟩] := by
  unfold get_any_game_id
  repeat' split
  all_goals simp

theorem gai_trace_cases (cfg : Config) (st : CState) (res : Response) :
    (get_any_issue_type_id cfg st res).trace = [] ∨
    (get_any_issue_type_id cfg st res).trace = [⟨Method.GET, "issue_types_enabled"⟩] := by
  unfold get_any_issue_type_id
  repeat' split
  all_goals simp

theorem gag_preserves (cfg : Config) (st : CState) (res : Response) :
    (get_any_game_id cfg st res).state.token = st.token ∧
    (get_any_game_id cfg st res).state.headers = st.headers := by
  unfold get_any_game_id
  repeat' split
  all_goals simp

theorem gai_preserves (cfg : Config) (st : CState) (res : Response) :
    (get_any_issue_type_id cfg st res).state.token = st.token ∧
    (get_any_issue_type_id cfg st res).state.headers = st.headers := by
  unfold get_any_issue_type_id
  repeat' split
  all_goals simp

theorem parsedId_spec (res : Response) :
    parsedId res = Json.null ∨
    ((pyOr (extract_data res) (Json.obj .nil)).isObj = true ∧
     parsedId res = jget (pyOr (extract_data res) (Json.obj .nil)) "id") := by
  by_cases hobj : (pyOr (extract_data res) (Json.obj .nil)).isObj = true
  · right
    exact ⟨hobj, by simp [parsedId, idOf, hobj]⟩
  · left
    simp [parsedId, idOf, hobj]

theorem ct_preserves (cfg : Config) (st : PState) (env : TicketEnv) :
    (create_ticket cfg st env).state.sessionId = st.sessionId ∧
    (create_ticket cfg st env).state.token = st.token ∧
    (create_ticket cfg st env).state.headers = st.headers := by
  unfold create_ticket ct_post
  repeat' split
  all_goals simp [gag_preserves, gai_preserves]

theorem ct_count_session (cfg : Config) (st : PState) (env : TicketEnv) :
    countName (create_ticket cfg st env).trace "player_create_session" = 0 := by
  unfold create_ticket ct_post
  rcases gag_trace_cases cfg st.toCState env.gamesRes with h1 | h1 <;>
    rcases gai_trace_cases cfg (get_any_game_id cfg st.toCState env.gamesRes).state
      env.issueTypesRes with h2 | h2 <;>
    repeat' split
  all_goals simp [countName_append, h1, h2, countName]

theorem ct_count_ticket (cfg : Config) (st : PState) (env : TicketEnv) :
    countName (create_ticket cfg st env).trace "player_create_ticket" ≤ 1 := by
  unfold create_ticket ct_post
  rcases gag_trace_cases cfg st.toCState env.gamesRes with h1 | h1 <;>
    rcases gai_trace_cases cfg (get_any_game_id cfg st.toCState env.gamesRes).state
      env.issueTypesRes with h2 | h2 <;>
    repeat' split
  all_goals simp [countName_append, h1, h2, countName]

theorem ct_val_cases (cfg : Config) (st : PState) (env : TicketEnv) :
    (create_ticket cfg st env).val = Json.null ∨
    ((create_ticket cfg st env).val = parsedId env.ticketRes ∧
     env.ticketRes.status ∈ OK_POST_CODES) := by
  unfold create_ticket ct_post
  repeat' split
  all_goals simp_all

theorem ct_ticketId_cases (cfg : Config) (st : PState) (env : TicketEnv) :
    (create_ticket cfg st env).state.ticketId = st.ticketId ∨
    ((create_ticket cfg st env).state.ticketId = parsedId env.ticketRes ∧
     env.ticketRes.status ∈ OK_POST_CODES) := by
  unfold create_ticket ct_post
  repeat' split
  all_goals simp_all

theorem grsid_hit (st : LFState) (res : Response) (pick : Nat)
    (h : pyTruthy st.cachedPlayerSession = true) :
    get_random_session_id st res pick = ⟨st.cachedPlayerSession, st, [], false⟩ := by
  unfold get_random_session_id
  simp [h]

theorem grsid_cases (st : LFState) (res : Response) (pick : Nat) :
    ((get_random_session_id st res pick).state = st ∧
      pyTruthy (get_random_session_id st res pick).val = false) ∨
    ((get_random_session_id st res pick).state = st ∧
      (get_random_session_id st res pick).val = st.cachedPlayerSession) ∨
    (get_random_session_id st res pick).state =
      { st with cachedPlayerSession := (get_random_session_id st res pick).val } := by
  unfold get_random_session_id
  repeat' split
  all_goals simp_all [pyTruthy]

theorem grsid_caches (st : LFState) (res : Response) (pick : Nat)
    (h : pyTruthy (get_random_session_id st res pick).val = true) :
    (get_random_session_id st res pick).state.cachedPlayerSession =
      (get_random_session_id st res pick).val := by
  rcases grsid_cases st res pick with ⟨_, hf⟩ | ⟨hs, hv⟩ | hs
  · rw [h] at hf
    cases hf
  · rw [hs, hv]
  · rw [hs]

theorem sm_hit (cfg : Config) (st : PState) (env : SendEnv)
    (h : pyTruthy st.sessionId = true) :
    send_message cfg st env =
      ⟨(), st, [⟨Method.POST, "player_send_msg"⟩, ⟨Method.GET, "player_poll_msgs"⟩], false⟩ := by
  unfold send_message sm_post
  simp [h]

/-! ## Claim theorems -/

/-- C1: for every actor whose cached session id is set, the session-ensuring
operation (`get_random_session_id` / the `send_message` guard) returns the
cached id immediately with no network call and unchanged state; and after a
first call that succeeds (returns a truthy id) a second call with no state
reset is a pure cache hit returning the same id with an empty trace. -/
theorem c1_cached_session_pure_hit :
    (∀ (st : LFState) (res : Response) (pick : Nat),
      pyTruthy st.cachedPlayerSession = true →
      get_random_session_id st res pick = ⟨st.cachedPlayerSession, st, [], false⟩) ∧
    (∀ (cfg : Config) (st : PState) (env : SendEnv),
      pyTruthy st.sessionId = true →
      send_message cfg st env =
        ⟨(), st, [⟨Method.POST, "player_send_msg"⟩, ⟨Method.GET, "player_poll_msgs"⟩], false⟩) ∧
    (∀ (st : LFState) (res res2 : Response) (pick pick2 : Nat),
      pyTruthy (get_random_session_id st res pick).val = true →
      get_random_session_id (get_random_session_id st res pick).state res2 pick2 =
        ⟨(get_random_session_id st res pick).val,
         (get_random_session_id st res pick).state, [], false⟩) := by
  refine ⟨grsid_hit, sm_hit, ?_⟩
  intro st res res2 pick pick2 h
  have hc := grsid_caches st res pick h
  have hh := grsid_hit (get_random_session_id st res pick).state res2 pick2 (by rw [hc]; exact h)
  rw [hh, hc]

/-- A response that never matters (all branches using it fail). -/
def rDummy : Response := { status := 500 }

/-- A send environment whose responses are never consumed on the fast path. -/
def envSendW : SendEnv :=
  { gamesRes := rDummy, issueTypesRes := rDummy, ticketRes := rDummy,
    sessionRes := rDummy, pollRes := rDummy }

/-- A locustfile actor with a populated session cache. -/
def stC1 : LFState := { cachedPlayerSession := Json.str "s1" }

/-- A player_user actor with a populated session cache. -/
def pstC1 : PState := { sessionId := Json.str "s1" }

/-- Witness for C1 at concrete populated-cache states. -/
theorem c1_witness :
    get_random_session_id stC1 rDummy 0 = ⟨Json.str "s1", stC1, [], false⟩ ∧
    send_message {} pstC1 envSendW =
      ⟨(), pstC1, [⟨Method.POST, "player_send_msg"⟩, ⟨Method.GET, "player_poll_msgs"⟩], false⟩ ∧
    get_random_session_id (get_random_session_id stC1 rDummy 0).state rDummy 1 =
      ⟨(get_random_session_id stC1 rDummy 0).val,
       (get_random_session_id stC1 rDummy 0).state, [], false⟩ :=
  ⟨c1_cached_session_pure_hit.1 stC1 rDummy 0 (by decide),
   c1_cached_session_pure_hit.2.1 {} pstC1 envSendW (by decide),
   c1_cached_session_pure_hit.2.2 stC1 rDummy rDummy 0 1 (by decide)⟩

/-- C3: statuses 401 and 429 never reach the reported-failure stream — both
`record_failure` implementations fire no event for them, whatever the
endpoint name; every other status fires an event carrying the response time,
the body length, and an exception message made of the status code and the
body. -/
theorem c3_401_429_never_reported :
    ∀ (name : String) (r : Response),
      ((r.status = 401 ∨ r.status = 429) →
        record_failure name r = none ∧ lfRecordFailure name r = none) ∧
      (¬(r.status = 401 ∨ r.status = 429) →
        record_failure name r = some
          { requestType := "HTTP", name := name,
            responseTime := r.elapsedMs.getD 0,
            responseLength := (effText r).length,
            exceptionMsg := toString r.status ++ " " ++ effText r } ∧
        lfRecordFailure name r = record_failure name r) := by
  intro name r
  constructor
  · intro h
    unfold record_failure lfRecordFailure is_throttle is_unauthorized
    rcases h with h | h <;> simp [h]
  · intro h
    push_neg at h
    unfold record_failure lfRecordFailure is_throttle is_unauthorized failureEventFor
    simp [h.1, h.2]

/-- A throttled response. -/
def rC3a : Response := { status := 429, text := some "slow down" }

/-- A reportable server error. -/
def rC3b : Response := { status := 500, text := some "boom", elapsedMs := some 12 }

/-- Witness for C3 at a throttled and a reportable concrete response. -/
theorem c3_witness :
    (record_failure "player_poll_msgs" rC3a = none ∧
      lfRecordFailure "player_poll_msgs" rC3a = none) ∧
    (record_failure "player_poll_msgs" rC3b = some
        { requestType := "HTTP", name := "player_poll_msgs",
          responseTime := rC3b.elapsedMs.getD 0,
          responseLength := (effText rC3b).length,
          exceptionMsg := toString rC3b.status ++ " " ++ effText rC3b } ∧
      lfRecordFailure "player_poll_msgs" rC3b = record_failure "player_poll_msgs" rC3b) :=
  ⟨(c3_401_429_never_reported "player_poll_msgs" rC3a).1 (Or.inr rfl),
   (c3_401_429_never_reported "player_poll_msgs" rC3b).2 (by decide)⟩

/-- The wrapped envelope of the C6 example. -/
def envelopeC6 : Json :=
  Json.obj (JFields.ofList
    [("success", Json.bool true),
     ("data", Json.obj (JFields.ofList [("id", Json.str "abc")])),
     ("timestamp", Json.str "t")])

/-- A response carrying the wrapped envelope. -/
def resC6a : Response := { status := 200, jsonResult := some envelopeC6 }

/-- The bare-list body of the C6 example. -/
def listC6 : Json := Json.arr (JList.ofList [Json.num 1, Json.num 2, Json.num 3])

/-- A response carrying the bare list. -/
def resC6b : Response := { status := 200, jsonResult := some listC6 }

/-- C6: `extract_data` returns the `data` member when the parsed body is a
mapping containing the key `data`, and the whole parsed body otherwise; in
particular the wrapped envelope yields its `data` object and a bare list is
returned unchanged. -/
theorem c6_extract_data_unwrap :
    (∀ (r : Response) (p : Json), r.jsonResult = some p →
      (p.isObj && hasKey p "data") = true → extract_data r = jget p "data") ∧
    (∀ (r : Response) (p : Json), r.jsonResult = some p →
      (p.isObj && hasKey p "data") = false → extract_data r = p) ∧
    extract_data resC6a = Json.obj (JFields.ofList [("id", Json.str "abc")]) ∧
    extract_data resC6b = listC6 := by
  refine ⟨?_, ?_, by decide, by decide⟩
  · intro r p hp hc
    simp [extract_data, hp, hc]
  · intro r p hp hc
    simp [extract_data, hp, hc]

/-- Witness for C6: the general clauses applied to the two example bodies. -/
theorem c6_witness :
    extract_data resC6a = jget envelopeC6 "data" ∧ extract_data resC6b = listC6 :=
  ⟨(c6_extract_data_unwrap.1 resC6a envelopeC6 rfl (by decide)),
   (c6_extract_data_unwrap.2.1 resC6b listC6 rfl (by decide))⟩

/-- C9: `extract_data` is total: the explicit-exception model returns
`Except.ok` on every response — equal to the plain function's value — and a
body that fails to parse yields `None`. -/
theorem c9_extract_data_total :
    ∀ r : Response, extract_dataE r = Except.ok (extract_data r) ∧
      (r.jsonResult = none → extract_data r = Json.null) := by
  intro r
  cases h : r.jsonResult <;> simp [extract_dataE, extract_data, h]

/-- A response whose body fails to parse. -/
def rC9 : Response := { status := 200, jsonResult := none }

/-- Witness for C9 at a concrete unparsable response. -/
theorem c9_witness :
    extract_dataE rC9 = Except.ok (extract_data rC9) ∧ extract_data rC9 = Json.null :=
  ⟨(c9_extract_data_total rC9).1, (c9_extract_data_total rC9).2 rfl⟩

/-- C10: a set (non-empty) `GAME_ID` / `ISSUE_TYPE_ID` environment override
is consulted before the per-actor cache: each getter returns the override,
issues no request, and leaves the actor state — cache attribute included —
unchanged, in both the common.py and the locustfile.py implementations. -/
theorem c10_env_override_skips_network :
    (∀ (cfg : Config) (st : CState) (res : Response) (g : String),
      cfg.envGameId = some g → g ≠ "" →
      get_any_game_id cfg st res = ⟨Json.str g, st, [], false⟩) ∧
    (∀ (cfg : Config) (st : CState) (res : Response) (i : String),
      cfg.envIssueTypeId = some i → i ≠ "" →
      get_any_issue_type_id cfg st res = ⟨Json.str i, st, [], false⟩) ∧
    (∀ (cfg : Config) (st : LFState) (res : Response) (g : String),
      cfg.envGameId = some g → g ≠ "" →
      lfGetAnyGameId cfg st res = ⟨Json.str g, st, [], false⟩) ∧
    (∀ (cfg : Config) (st : LFState) (res : Response) (i : String),
      cfg.envIssueTypeId = some i → i ≠ "" →
      lfGetAnyIssueTypeId cfg st res = ⟨Json.str i, st, [], false⟩) := by
  refine ⟨?_, ?_, ?_, ?_⟩
  · intro cfg st res g hg hne
    unfold get_any_game_id
    rw [hg]
    simp [pyStrOpt, pyTruthy, hne]
  · intro cfg st res i hi hne
    unfold get_any_issue_type_id
    rw [hi]
    simp [pyStrOpt, pyTruthy, hne]
  · intro cfg st res g hg hne
    unfold lfGetAnyGameId
    rw [hg]
    simp [pyStrOpt, pyTruthy, hne]
  · intro cfg st res i hi hne
    unfold lfGetAnyIssueTypeId
    rw [hi]
    simp [pyStrOpt, pyTruthy, hne]

/-- A configuration with both overrides set. -/
def cfgC10 : Config := { envGameId := some "G1", envIssueTypeId := some "I1" }

/-- A common.py actor with a different value already cached. -/
def stC10 : CState := { gameIdCache := Json.str "cachedG", issueTypeCache := Json.str "cachedI" }

/-- A locustfile actor with a different value already cached. -/
def lstC10 : LFState := { gameCache := Json.str "cachedG", issueTypeCache := Json.str "cachedI" }

/-- Witness for C10: with populated caches the override still wins. -/
theorem c10_witness :
    get_any_game_id cfgC10 stC10 rDummy = ⟨Json.str "G1", stC10, [], false⟩ ∧
    get_any_issue_type_id cfgC10 stC10 rDummy = ⟨Json.str "I1", stC10, [], false⟩ ∧
    lfGetAnyGameId cfgC10 lstC10 rDummy = ⟨Json.str "G1", lstC10, [], false⟩ ∧
    lfGetAnyIssueTypeId cfgC10 lstC10 rDummy = ⟨Json.str "I1", lstC10, [], false⟩ :=
  ⟨c10_env_override_skips_network.1 cfgC10 stC10 rDummy "G1" rfl (by decide),
   c10_env_override_skips_network.2.1 cfgC10 stC10 rDummy "I1" rfl (by decide),
   c10_env_override_skips_network.2.2.1 cfgC10 lstC10 rDummy "G1" rfl (by decide),
   c10_env_override_skips_network.2.2.2 cfgC10 lstC10 rDummy "I1" rfl (by decide)⟩

theorem cs_post_trace_cases (env : SessionEnv) (st1 : PState) (tr1 : List Request) :
    (cs_post env st1 tr1).trace = tr1 ∨
    (cs_post env st1 tr1).trace = tr1 ++ [⟨Method.POST, "player_create_session"⟩] := by
  unfold cs_post
  repeat' split
  all_goals simp

theorem cs_post_ticketId (env : SessionEnv) (st1 : PState) (tr1 : List Request) :
    (cs_post env st1 tr1).state.ticketId = st1.ticketId := by
  unfold cs_post
  repeat' split
  all_goals simp

theorem cs_post_sessionId_cases (env : SessionEnv) (st1 : PState) (tr1 : List Request) :
    (cs_post env st1 tr1).state.sessionId = st1.sessionId ∨
    ((cs_post env st1 tr1).state.sessionId = parsedId env.sessionRes ∧
     env.sessionRes.status ∈ OK_POST_CODES ∧ pyTruthy st1.ticketId = true) := by
  unfold cs_post
  repeat' split
  all_goals simp_all

theorem cs_post_auth (env : SessionEnv) (st1 : PState) (tr1 : List Request) :
    (cs_post env st1 tr1).state.token = st1.token ∧
    (cs_post env st1 tr1).state.headers = st1.headers := by
  unfold cs_post
  repeat' split
  all_goals simp

theorem cs_shape (cfg : Config) (st : PState) (env : SessionEnv) :
    create_session cfg st env =
      cs_post env
        { (create_ticket cfg st env.toTicketEnv).state with
          ticketId := (create_ticket cfg st env.toTicketEnv).val }
        (create_ticket cfg st env.toTicketEnv).trace ∨
    (pyTruthy st.ticketId = true ∧ create_session cfg st env = cs_post env st []) := by
  unfold create_session
  by_cases h : pyTruthy st.ticketId = true
  · right
    simp [h]
  · left
    simp [h]

/-- C2: for an actor with an empty session and ticket cache, a ticket POST
answered with a status outside the accepted set makes `create_session`
return `None`, leaves both caches empty, and attempts no session POST. -/
theorem c2_ticket_failure_leaves_cache_empty
    (cfg : Config) (st : PState) (env : SessionEnv)
    (hs : st.sessionId = Json.null) (ht : st.ticketId = Json.null)
    (hbad : env.ticketRes.status ∉ OK_POST_CODES) :
    (create_session cfg st env).val = Json.null ∧
    (create_session cfg st env).state.ticketId = Json.null ∧
    (create_session cfg st env).state.sessionId = Json.null ∧
    countName (create_session cfg st env).trace "player_create_session" = 0 := by
  have hval : (create_ticket cfg st env.toTicketEnv).val = Json.null := by
    rcases ct_val_cases cfg st env.toTicketEnv with h | ⟨_, hok⟩
    · exact h
    · exact absurd hok hbad
  have hses := (ct_preserves cfg st env.toTicketEnv).1
  unfold create_session cs_post
  rw [ht, hval]
  simp [pyTruthy, hses, hs, ct_count_session]

/-- The standard success envelope of the backend. -/
def wrapData (j : Json) : Json :=
  Json.obj (JFields.ofList
    [("success", Json.bool true), ("data", j), ("timestamp", Json.str "t")])

/-- A 200 response whose data member is a list of the given items. -/
def rOkList (items : List Json) : Response :=
  { status := 200, jsonResult := some (wrapData (Json.arr (JList.ofList items))) }

/-- A well-formed game candidate. -/
def gameItem : Json := Json.obj (JFields.ofList [("id", Json.str "g1"), ("name", Json.str "G")])

/-- A well-formed issue-type candidate. -/
def issueItem : Json := Json.obj (JFields.ofList [("id", Json.str "i1"), ("name", Json.str "I")])

/-- Responses for C2: id resolutions succeed, the ticket POST gets a 500. -/
def envC2 : SessionEnv :=
  { gamesRes := rOkList [gameItem], issueTypesRes := rOkList [issueItem],
    ticketRes := { status := 500 },
    sessionRes := { status := 201,
                    jsonResult := some (wrapData (Json.obj (JFields.ofList [("id", Json.str "sX")]))) } }

/-- Witness for C2: a fresh actor whose ticket POST fails with 500. -/
theorem c2_witness :
    (create_session {} {} envC2).val = Json.null ∧
    (create_session {} {} envC2).state.ticketId = Json.null ∧
    (create_session {} {} envC2).state.sessionId = Json.null ∧
    countName (create_session {} {} envC2).trace "player_create_session" = 0 :=
  c2_ticket_failure_leaves_cache_empty {} {} envC2 rfl rfl (by decide)

theorem cs_count_ticket (cfg : Config) (st : PState) (env : SessionEnv) :
    countName (create_session cfg st env).trace "player_create_ticket" ≤ 1 := by
  have hct := ct_count_ticket cfg st env.toTicketEnv
  have h0 : countName [⟨Method.POST, "player_create_session"⟩] "player_create_ticket" = 0 := by
    decide
  have he : countName ([] : List Request) "player_create_ticket" = 0 := by decide
  rcases cs_shape cfg st env with hsh | ⟨_, hsh⟩ <;> rw [hsh] <;>
    rcases cs_post_trace_cases env _ _ with htr | htr <;> rw [htr] <;>
    (try simp [countName_append, h0, he]) <;> omega

theorem cs_count_session (cfg : Config) (st : PState) (env : SessionEnv) :
    countName (create_session cfg st env).trace "player_create_session" ≤ 1 := by
  have hct := ct_count_session cfg st env.toTicketEnv
  have h1 : countName [⟨Method.POST, "player_create_session"⟩] "player_create_session" = 1 := by
    decide
  have he : countName ([] : List Request) "player_create_session" = 0 := by decide
  rcases cs_shape cfg st env with hsh | ⟨_, hsh⟩ <;> rw [hsh] <;>
    rcases cs_post_trace_cases env _ _ with htr | htr <;> rw [htr] <;>
    (try simp [countName_append, h1, he]) <;> omega

theorem ai_post_trace_cases (env : SessionEnv) (gid iid : Json) (st1 : AIState)
    (tr : List Request) :
    (ai_post env gid iid st1 tr).trace = tr ∨
    (ai_post env gid iid st1 tr).trace = tr ++ [⟨Method.POST, "ai_setup_ticket"⟩] ∨
    (ai_post env gid iid st1 tr).trace =
      tr ++ [⟨Method.POST, "ai_setup_ticket"⟩, ⟨Method.POST, "ai_setup_session"⟩] := by
  unfold ai_post
  repeat' split
  all_goals simp

theorem ai_post_sid_cases (env : SessionEnv) (gid iid : Json) (st1 : AIState)
    (tr : List Request) :
    (ai_post env gid iid st1 tr).state.sid = st1.sid ∨
    ((ai_post env gid iid st1 tr).state.sid = jget (extract_data env.sessionRes) "id" ∧
     env.sessionRes.status ∈ OK_POST_CODES ∧ (extract_data env.sessionRes).isObj = true) := by
  unfold ai_post
  repeat' split
  all_goals simp_all

theorem ai_shape (cfg : Config) (pid : String) (st : CState) (doSetup : Bool)
    (env : SessionEnv) :
    aiOnStart cfg pid st doSetup env = ⟨(), aiBase cfg pid st, [], false⟩ ∨
    aiOnStart cfg pid st doSetup env =
      ai_post env (get_any_game_id cfg st env.gamesRes).val
        (get_any_issue_type_id cfg (get_any_game_id cfg st env.gamesRes).state
          env.issueTypesRes).val
        { aiBase cfg pid st with
          toCState :=
            (get_any_issue_type_id cfg (get_any_game_id cfg st env.gamesRes).state
              env.issueTypesRes).state }
        ((get_any_game_id cfg st env.gamesRes).trace ++
          (get_any_issue_type_id cfg (get_any_game_id cfg st env.gamesRes).state
            env.issueTypesRes).trace) := by
  unfold aiOnStart
  repeat' split
  all_goals simp

theorem ai_base_trace_zero (cfg : Config) (st : CState) (env : SessionEnv) (n : String)
    (hn1 : n ≠ "games_enabled") (hn2 : n ≠ "issue_types_enabled") :
    countName ((get_any_game_id cfg st env.gamesRes).trace ++
      (get_any_issue_type_id cfg (get_any_game_id cfg st env.gamesRes).state
        env.issueTypesRes).trace) n = 0 := by
  rcases gag_trace_cases cfg st env.gamesRes with h1 | h1 <;>
    rcases gai_trace_cases cfg (get_any_game_id cfg st env.gamesRes).state
      env.issueTypesRes with h2 | h2 <;>
    simp [countName_append, h1, h2, countName, Ne.symm hn1, Ne.symm hn2]

/-- C4: one `create_session` invocation issues at most one ticket POST and at
most one session POST; starting from an empty cache, the cached ticket and
session ids become non-`None` only when the corresponding POST was answered
with an accepted status and a body parsing to a mapping whose `id` member is
the cached value.  The same discipline holds for `AIMessageUser.on_start`. -/
theorem c4_single_resolution_attempt :
    (∀ (cfg : Config) (st : PState) (env : SessionEnv),
      countName (create_session cfg st env).trace "player_create_ticket" ≤ 1 ∧
      countName (create_session cfg st env).trace "player_create_session" ≤ 1) ∧
    (∀ (cfg : Config) (st : PState) (env : SessionEnv), st.ticketId = Json.null →
      (create_session cfg st env).state.ticketId ≠ Json.null →
      env.ticketRes.status ∈ OK_POST_CODES ∧
      (pyOr (extract_data env.ticketRes) (Json.obj .nil)).isObj = true ∧
      (create_session cfg st env).state.ticketId =
        jget (pyOr (extract_data env.ticketRes) (Json.obj .nil)) "id") ∧
    (∀ (cfg : Config) (st : PState) (env : SessionEnv), st.sessionId = Json.null →
      (create_session cfg st env).state.sessionId ≠ Json.null →
      env.sessionRes.status ∈ OK_POST_CODES ∧
      (pyOr (extract_data env.sessionRes) (Json.obj .nil)).isObj = true ∧
      (create_session cfg st env).state.sessionId =
        jget (pyOr (extract_data env.sessionRes) (Json.obj .nil)) "id") ∧
    (∀ (cfg : Config) (pid : String) (st : CState) (doSetup : Bool) (env : SessionEnv),
      countName (aiOnStart cfg pid st doSetup env).trace "ai_setup_ticket" ≤ 1 ∧
      countName (aiOnStart cfg pid st doSetup env).trace "ai_setup_session" ≤ 1 ∧
      (pyTruthy (pyStrOpt cfg.aiSessionId) = false →
        (aiOnStart cfg pid st doSetup env).state.sid ≠ Json.null →
        env.sessionRes.status ∈ OK_POST_CODES ∧
        (extract_data env.sessionRes).isObj = true ∧
        (aiOnStart cfg pid st doSetup env).state.sid =
          jget (extract_data env.sessionRes) "id")) := by
  refine ⟨fun cfg st env => ⟨cs_count_ticket cfg st env, cs_count_session cfg st env⟩,
    ?_, ?_, ?_⟩
  · intro cfg st env ht hne
    have hti : (create_session cfg st env).state.ticketId =
        (create_ticket cfg st env.toTicketEnv).val := by
      rcases cs_shape cfg st env with hsh | ⟨htr, hsh⟩
      · rw [hsh, cs_post_ticketId]
      · rw [ht] at htr
        simp [pyTruthy] at htr
    rw [hti] at hne ⊢
    rcases ct_val_cases cfg st env.toTicketEnv with hv | ⟨hv, hok⟩
    · exact absurd hv hne
    · rcases parsedId_spec env.ticketRes with hp | ⟨hobj, hpe⟩
      · rw [hv, hp] at hne
        exact absurd rfl hne
      · exact ⟨hok, hobj, by rw [hv, hpe]⟩
  · intro cfg st env hs hne
    rcases cs_shape cfg st env with hsh | ⟨_, hsh⟩ <;> rw [hsh] at hne ⊢
    · have hs1 : ({ (create_ticket cfg st env.toTicketEnv).state with
          ticketId := (create_ticket cfg st env.toTicketEnv).val } : PState).sessionId =
          Json.null := by
        simp [(ct_preserves cfg st env.toTicketEnv).1, hs]
      rcases cs_post_sessionId_cases env _ _ with h1 | ⟨h1, h2, _⟩
      · rw [h1, hs1] at hne
        exact absurd rfl hne
      · rcases parsedId_spec env.sessionRes with hp | ⟨hobj, hpe⟩
        · rw [h1, hp] at hne
          exact absurd rfl hne
        · exact ⟨h2, hobj, by rw [h1, hpe]⟩
    · rcases cs_post_sessionId_cases env _ _ with h1 | ⟨h1, h2, _⟩
      · rw [h1, hs] at hne
        exact absurd rfl hne
      · rcases parsedId_spec env.sessionRes with hp | ⟨hobj, hpe⟩
        · rw [h1, hp] at hne
          exact absurd rfl hne
        · exact ⟨h2, hobj, by rw [h1, hpe]⟩
  · intro cfg pid st doSetup env
    have hb1 := ai_base_trace_zero cfg st env "ai_setup_ticket" (by decide) (by decide)
    have hb2 := ai_base_trace_zero cfg st env "ai_setup_session" (by decide) (by decide)
    have hcnt1 : countName [(⟨Method.POST, "ai_setup_ticket"⟩ : Request)] "ai_setup_ticket" = 1 ∧
        countName [(⟨Method.POST, "ai_setup_ticket"⟩ : Request)] "ai_setup_session" = 0 := by
      decide
    have hcnt2 :
        countName [(⟨Method.POST, "ai_setup_ticket"⟩ : Request),
          (⟨Method.POST, "ai_setup_session"⟩ : Request)] "ai_setup_ticket" = 1 ∧
        countName [(⟨Method.POST, "ai_setup_ticket"⟩ : Request),
          (⟨Method.POST, "ai_setup_session"⟩ : Request)] "ai_setup_session" = 1 := by
      decide
    have he : ∀ n : String, countName ([] : List Request) n = 0 := by
      intro n
      simp [countName]
    rw [countName_append] at hb1 hb2
    refine ⟨?_, ?_, ?_⟩
    · rcases ai_shape cfg pid st doSetup env with hsh | hsh <;> rw [hsh]
      · simp [he]
      · rcases ai_post_trace_cases env _ _ _ _ with htr | htr | htr <;> rw [htr] <;>
          (try simp [countName_append, hcnt1.1, hcnt2.1]) <;> omega
    · rcases ai_shape cfg pid st doSetup env with hsh | hsh <;> rw [hsh]
      · simp [he]
      · rcases ai_post_trace_cases env _ _ _ _ with htr | htr | htr <;> rw [htr] <;>
          (try simp [countName_append, hcnt1.2, hcnt2.2]) <;> omega
    · intro henv hne
      have hbase : (aiBase cfg pid st).sid = Json.null := by
        simp [aiBase, henv]
      rcases ai_shape cfg pid st doSetup env with hsh | hsh <;> rw [hsh] at hne ⊢
      · exact absurd hbase hne
      · rcases ai_post_sid_cases env _ _ _ _ with h1 | ⟨h1, h2, h3⟩
        · rw [h1] at hne
          simp [hbase] at hne
        · exact ⟨h2, h3, h1⟩

/-- Responses for the C4 witness: everything succeeds. -/
def envC4 : SessionEnv :=
  { gamesRes := rOkList [gameItem], issueTypesRes := rOkList [issueItem],
    ticketRes := { status := 201,
                   jsonResult := some (wrapData (Json.obj (JFields.ofList [("id", Json.str "t9")]))) },
    sessionRes := { status := 200,
                    jsonResult := some (wrapData (Json.obj (JFields.ofList [("id", Json.str "s9")]))) } }

/-- Witness for C4 at a fresh actor and a fully succeeding backend. -/
theorem c4_witness :
    (countName (create_session {} {} envC4).trace "player_create_ticket" ≤ 1 ∧
      countName (create_session {} {} envC4).trace "player_create_session" ≤ 1) ∧
    (envC4.ticketRes.status ∈ OK_POST_CODES ∧
      (pyOr (extract_data envC4.ticketRes) (Json.obj .nil)).isObj = true ∧
      (create_session {} {} envC4).state.ticketId =
        jget (pyOr (extract_data envC4.ticketRes) (Json.obj .nil)) "id") ∧
    (envC4.sessionRes.status ∈ OK_POST_CODES ∧
      (pyOr (extract_data envC4.sessionRes) (Json.obj .nil)).isObj = true ∧
      (create_session {} {} envC4).state.sessionId =
        jget (pyOr (extract_data envC4.sessionRes) (Json.obj .nil)) "id") ∧
    (envC4.sessionRes.status ∈ OK_POST_CODES ∧
      (extract_data envC4.sessionRes).isObj = true ∧
      (aiOnStart {} "stress_1" {} true envC4).state.sid =
        jget (extract_data envC4.sessionRes) "id") :=
  ⟨c4_single_resolution_attempt.1 {} {} envC4,
   c4_single_resolution_attempt.2.1 {} {} envC4 rfl (by decide),
   c4_single_resolution_attempt.2.2.1 {} {} envC4 rfl (by decide),
   (c4_single_resolution_attempt.2.2.2 {} "stress_1" {} true envC4).2.2 (by decide) (by decide)⟩

/-- C5 counterexample: a never-authenticated actor (`headers = None`) runs
`create_session`, the session-ensuring operation of player_user.py, which
still performs network I/O — four requests — and even returns a session id,
instead of signalling an unauthenticated failure with no network call. -/
theorem c5_counterexample :
    ({} : PState).headers = none ∧
    (create_session {} {} envC4).trace ≠ [] ∧
    (create_session {} {} envC4).val = Json.str "s9" :=
  ⟨rfl, by decide, by decide⟩

/-- C5 amended: the `auth_headers` precondition is enforced only by
locustfile.py's `BaseUser.get_any_game_id`: when the override is not usable,
the per-actor cache is empty and `headers` is unset, it returns `None` and
issues no request.  The common.py getters and player_user.py's
`create_ticket`/`create_session` perform their network calls regardless of
`auth_headers` (see the counterexample). -/
theorem c5_amended (cfg : Config) (st : LFState) (res : Response)
    (h1 : pyTruthy (pyStrOpt cfg.envGameId) = false)
    (h2 : pyTruthy st.gameCache = false)
    (h3 : st.headers = none) :
    lfGetAnyGameId cfg st res = ⟨Json.null, st, [], false⟩ := by
  unfold lfGetAnyGameId
  simp [h1, h2, h3]

/-- Witness for the amended C5 at a fresh unauthenticated locustfile actor. -/
theorem c5_amended_witness :
    lfGetAnyGameId {} {} rDummy = ⟨Json.null, {}, [], false⟩ :=
  c5_amended {} {} rDummy (by decide) (by decide) rfl

/-- Candidates where only the second carries a preferred issue-type name. -/
def itemsC7 : JList := JList.ofList
  [Json.obj (JFields.ofList [("id", Json.str "x"), ("name", Json.str "misc")]),
   Json.obj (JFields.ofList [("id", Json.str "y"), ("name", Json.str "游戏玩法咨询")])]

/-- A 200 issue-types response listing `itemsC7`. -/
def resC7 : Response := { status := 200, jsonResult := some (wrapData (Json.arr itemsC7)) }

/-- C7 counterexample: common.py's `get_any_issue_type_id` — the id-selection
step for the issue-types endpoint in that module — returns the first entry's
id `"x"` even though the claimed preferred-name policy selects `"y"`:
common.py never scans the preferred-name list. -/
theorem c7_counterexample :
    (get_any_issue_type_id {} {} resC7).val = Json.str "x" ∧
    specSelectId PREFERRED_ISSUE_TYPES itemsC7 = Json.str "y" ∧
    (get_any_issue_type_id {} {} resC7).val ≠ specSelectId PREFERRED_ISSUE_TYPES itemsC7 :=
  ⟨by decide, by decide, by decide⟩

/-- A candidate that is a mapping with a truthy id member. -/
def wellFormedItem (item : Json) : Bool := item.isObj && pyTruthy (jget item "id")

theorem pyTruthy_of_id (m : Json) (hobj : m.isObj = true)
    (hid : pyTruthy (jget m "id") = true) : pyTruthy m = true := by
  cases m with
  | obj fields =>
    cases fields with
    | nil => simp [jget, jfieldsGet, pyTruthy] at hid
    | cons k v tl => simp [pyTruthy, JFields.isNil]
  | null => simp [Json.isObj] at hobj
  | bool b => simp [Json.isObj] at hobj
  | num n => simp [Json.isObj] at hobj
  | str s => simp [Json.isObj] at hobj
  | arr elems => simp [Json.isObj] at hobj

theorem findByName_all (p : Json → Bool) :
    ∀ (items : JList) (n : String) (m : Json),
      JList.all p items = true → findByName items n = some m → p m = true
  | JList.nil, n, m => by
    intro _ hf
    simp [findByName] at hf
  | JList.cons hd tl, n, m => by
    intro hall hf
    unfold findByName at hf
    unfold JList.all at hall
    rw [Bool.and_eq_true] at hall
    split at hf
    · cases hf
      exact hall.1
    · exact findByName_all p tl n m hall.2 hf

theorem selectPreferred_cons_none (n : String) (rest : List String) (items : JList)
    (hf : findByName items n = none) :
    selectPreferred (n :: rest) items = selectPreferred rest items := by
  simp only [selectPreferred, hf]

theorem selectPreferred_cons_some (n : String) (rest : List String) (items : JList)
    (m : Json) (hf : findByName items n = some m)
    (hc : (pyTruthy m && pyTruthy (jget m "id")) = true) :
    selectPreferred (n :: rest) items = jget m "id" := by
  simp only [selectPreferred, hf]
  simp [hc]

theorem selectId_congr (p1 p2 : List String) (items : JList)
    (h : selectPreferred p1 items = selectPreferred p2 items) :
    selectId p1 items = selectId p2 items := by
  unfold selectId
  rw [h]

theorem specSelectId_cons_none (n : String) (rest : List String) (items : JList)
    (hf : findByName items n = none) :
    specSelectId (n :: rest) items = specSelectId rest items := by
  simp [specSelectId, specFirstPreferredMatch, hf]

theorem specSelectId_cons_some (n : String) (rest : List String) (items : JList)
    (m : Json) (hf : findByName items n = some m) :
    specSelectId (n :: rest) items = jget m "id" := by
  simp [specSelectId, specFirstPreferredMatch, hf]

/-- C7 amended: the claimed selection policy is implemented by the
locustfile.py getters (whose selection step is `selectId`): on any candidate
list whose entries are all mappings with truthy ids, `selectId` equals the
spec policy `specSelectId` for every preferred-name list.  common.py's
getters instead always take the first entry's id, ignoring names (see the
counterexample). -/
theorem c7_amended (preferred : List String) (items : JList)
    (h : JList.all wellFormedItem items = true) :
    selectId preferred items = specSelectId preferred items := by
  induction preferred with
  | nil =>
    cases items with
    | nil => rfl
    | cons first tl =>
      have hw : wellFormedItem first = true := by
        unfold JList.all at h
        rw [Bool.and_eq_true] at h
        exact h.1
      have hobj : first.isObj = true := by
        unfold wellFormedItem at hw
        rw [Bool.and_eq_true] at hw
        exact hw.1
      simp [selectId, selectPreferred, specSelectId, specFirstPreferredMatch, pyTruthy, hobj]
  | cons n rest ih =>
    cases hf : findByName items n with
    | none =>
      rw [selectId_congr (n :: rest) rest items (selectPreferred_cons_none n rest items hf),
        ih, specSelectId_cons_none n rest items hf]
    | some m =>
      have hp := findByName_all wellFormedItem items n m h hf
      unfold wellFormedItem at hp
      rw [Bool.and_eq_true] at hp
      obtain ⟨hobj, hid⟩ := hp
      have hm : pyTruthy m = true := pyTruthy_of_id m hobj hid
      have hsp := selectPreferred_cons_some n rest items m hf (by rw [hm, hid]; rfl)
      rw [specSelectId_cons_some n rest items m hf]
      unfold selectId
      rw [hsp]
      simp [hid]

/-- Witness for the amended C7: on the well-formed candidate list of the
counterexample the code's selection equals the spec policy. -/
theorem c7_amended_witness :
    selectId PREFERRED_ISSUE_TYPES itemsC7 = specSelectId PREFERRED_ISSUE_TYPES itemsC7 :=
  c7_amended PREFERRED_ISSUE_TYPES itemsC7 (by decide)

/-- A player actor holding a session and a ticket. -/
def stC8 : PState := { sessionId := Json.str "s1", ticketId := Json.str "t1" }

/-- Responses where the session POST is accepted but its body's data member
is a list, so no id can be parsed from it. -/
def envC8 : SessionEnv :=
  { gamesRes := rDummy, issueTypesRes := rDummy, ticketRes := rDummy,
    sessionRes := { status := 200,
                    jsonResult := some (wrapData (Json.arr (JList.ofList [Json.num 1]))) } }

/-- C8 counterexample: `create_session` — run unconditionally by the
`create_session_task` task — clears a populated session cache when the
session POST is accepted but its body parses without an id, so an operation
other than a process restart does invalidate the cache. -/
theorem c8_counterexample :
    pyTruthy stC8.sessionId = true ∧
    (pstep {} (POp.createSession envC8) stC8).sessionId = Json.null :=
  ⟨by decide, by decide⟩

theorem pairedAuth_congr (a b : CState) (ht : b.token = a.token)
    (hh : b.headers = a.headers) (h : pairedAuth a) : pairedAuth b := by
  unfold pairedAuth at *
  rw [ht, hh]
  exact h

theorem login_pairedAuth (st : CState) (res : Response) (h : pairedAuth st) :
    pairedAuth (login_admin st res).state := by
  unfold login_admin pairedAuth at *
  repeat' split
  all_goals simp_all

theorem logout_pairedAuth (st : CState) (h : pairedAuth st) :
    pairedAuth (logout_admin st).state := by
  unfold logout_admin pairedAuth at *
  split
  all_goals simp_all [pyTruthy]

theorem cs_auth (cfg : Config) (st : PState) (env : SessionEnv) :
    (create_session cfg st env).state.token = st.token ∧
    (create_session cfg st env).state.headers = st.headers := by
  rcases cs_shape cfg st env with hsh | ⟨_, hsh⟩ <;> rw [hsh]
  · constructor
    · rw [(cs_post_auth env _ _).1]
      simp [(ct_preserves cfg st env.toTicketEnv).2.1]
    · rw [(cs_post_auth env _ _).2]
      simp [(ct_preserves cfg st env.toTicketEnv).2.2]
  · exact cs_post_auth env st []

theorem sm_post_state (st1 : PState) (tr1 : List Request) : (sm_post st1 tr1).state = st1 := by
  unfold sm_post
  split
  all_goals rfl

theorem sm_shape (cfg : Config) (st : PState) (env : SendEnv) :
    (pyTruthy st.sessionId = false ∧
      (send_message cfg st env).state = (create_session cfg st env.toSessionEnv).state) ∨
    (pyTruthy st.sessionId = true ∧ (send_message cfg st env).state = st) := by
  by_cases h : pyTruthy st.sessionId = true
  · right
    refine ⟨h, ?_⟩
    unfold send_message
    simp [h, sm_post_state]
  · left
    have hb : pyTruthy st.sessionId = false := by simpa using h
    refine ⟨hb, ?_⟩
    unfold send_message
    simp [hb, sm_post_state]

theorem cs_sessionId_clear (cfg : Config) (st : PState) (env : SessionEnv)
    (h1 : pyTruthy st.sessionId = true)
    (h2 : pyTruthy (create_session cfg st env).state.sessionId = false) :
    env.sessionRes.status ∈ OK_POST_CODES := by
  rcases cs_shape cfg st env with hsh | ⟨_, hsh⟩ <;> rw [hsh] at h2
  · rcases cs_post_sessionId_cases env
      { (create_ticket cfg st env.toTicketEnv).state with
        ticketId := (create_ticket cfg st env.toTicketEnv).val }
      (create_ticket cfg st env.toTicketEnv).trace with he | ⟨_, hok, _⟩
    · rw [he] at h2
      simp [(ct_preserves cfg st env.toTicketEnv).1, h1] at h2
    · exact hok
  · rcases cs_post_sessionId_cases env st [] with he | ⟨_, hok, _⟩
    · rw [he, h1] at h2
      cases h2
    · exact hok

/-- C8 amended: every modelled `PlayerUser` operation preserves the
token/headers pairing (the actor holds at most one auth pair, and by the
single-field state at most one cached session id), and a populated session
id survives every operation except `create_session` — reachable with a
populated cache through the unconditional `create_session_task` — when the
session response has an accepted status but its body yields no id (see the
counterexample); `get_random_session_id` leaves a populated cache untouched. -/
theorem c8_at_most_one_and_no_clear :
    (∀ (cfg : Config) (op : POp) (st : PState),
      pairedAuth st.toCState → pairedAuth (pstep cfg op st).toCState) ∧
    (∀ (cfg : Config) (op : POp) (st : PState),
      pyTruthy st.sessionId = true → pyTruthy (pstep cfg op st).sessionId = false →
      ∃ env : SessionEnv, op = POp.createSession env ∧
        env.sessionRes.status ∈ OK_POST_CODES) ∧
    (∀ (st : LFState) (res : Response) (pick : Nat),
      pyTruthy st.cachedPlayerSession = true →
      (get_random_session_id st res pick).state = st) := by
  refine ⟨?_, ?_, ?_⟩
  · intro cfg op st h
    cases op with
    | loginAdmin res => exact login_pairedAuth st.toCState res h
    | logoutAdmin => exact logout_pairedAuth st.toCState h
    | createTicket env =>
      exact pairedAuth_congr st.toCState _ (ct_preserves cfg st env).2.1
        (ct_preserves cfg st env).2.2 h
    | createSession env =>
      exact pairedAuth_congr st.toCState _ (cs_auth cfg st env).1 (cs_auth cfg st env).2 h
    | sendMessage env =>
      show pairedAuth (send_message cfg st env).state.toCState
      rcases sm_shape cfg st env with ⟨_, hst⟩ | ⟨_, hst⟩ <;> rw [hst]
      · exact pairedAuth_congr st.toCState _ (cs_auth cfg st env.toSessionEnv).1
          (cs_auth cfg st env.toSessionEnv).2 h
      · exact h
    | getGameId res =>
      exact pairedAuth_congr st.toCState _ (gag_preserves cfg st.toCState res).1
        (gag_preserves cfg st.toCState res).2 h
    | getIssueTypeId res =>
      exact pairedAuth_congr st.toCState _ (gai_preserves cfg st.toCState res).1
        (gai_preserves cfg st.toCState res).2 h
    | listMessages res => exact h
    | sessionDetail res => exact h
  · intro cfg op st h1 h2
    cases op with
    | createSession env => exact ⟨env, rfl, cs_sessionId_clear cfg st env h1 h2⟩
    | sendMessage env =>
      rcases sm_shape cfg st env with ⟨hf, _⟩ | ⟨_, hst⟩
      · rw [hf] at h1
        cases h1
      · have heq : pyTruthy (pstep cfg (POp.sendMessage env) st).sessionId =
            pyTruthy st.sessionId := by
          show pyTruthy (send_message cfg st env).state.sessionId = _
          rw [hst]
        rw [heq, h1] at h2
        cases h2
    | createTicket env =>
      have hpre : (pstep cfg (POp.createTicket env) st).sessionId = st.sessionId :=
        (ct_preserves cfg st env).1
      rw [hpre, h1] at h2
      cases h2
    | loginAdmin res =>
      rw [show (pstep cfg (POp.loginAdmin res) st).sessionId = st.sessionId from rfl, h1] at h2
      cases h2
    | logoutAdmin =>
      rw [show (pstep cfg POp.logoutAdmin st).sessionId = st.sessionId from rfl, h1] at h2
      cases h2
    | getGameId res =>
      rw [show (pstep cfg (POp.getGameId res) st).sessionId = st.sessionId from rfl, h1] at h2
      cases h2
    | getIssueTypeId res =>
      rw [show (pstep cfg (POp.getIssueTypeId res) st).sessionId = st.sessionId from rfl,
        h1] at h2
      cases h2
    | listMessages res =>
      rw [show (pstep cfg (POp.listMessages res) st).sessionId = st.sessionId from rfl,
        h1] at h2
      cases h2
    | sessionDetail res =>
      rw [show (pstep cfg (POp.sessionDetail res) st).sessionId = st.sessionId from rfl,
        h1] at h2
      cases h2
  · intro st res pick h
    rw [grsid_hit st res pick h]

/-- Witness for the amended C8: a concrete logout preserves the pairing, the
concrete cache-clearing step is indeed a `create_session` with an accepted
status, and a cache-hit lookup leaves the state untouched. -/
theorem c8_amended_witness :
    pairedAuth (pstep {} POp.logoutAdmin stC8).toCState ∧
    (∃ env : SessionEnv, POp.createSession envC8 = POp.createSession env ∧
      env.sessionRes.status ∈ OK_POST_CODES) ∧
    (get_random_session_id stC1 rDummy 3).state = stC1 :=
  ⟨c8_at_most_one_and_no_clear.1 {} POp.logoutAdmin stC8 rfl,
   c8_at_most_one_and_no_clear.2.1 {} (POp.createSession envC8) stC8 (by decide) (by decide),
   c8_at_most_one_and_no_clear.2.2 stC1 rDummy 3 (by decide)⟩
